import Mathlib

/-!
Verification development for the `xserver_dbhelper` repository
(`src/xserver_dbhelper/xserver_db_connect.py`).

The single source file defines a class `DBHelper` that

* in `__init__` validates the database name, reads a JSON configuration
  file and stores the connection settings (raising `NotDatabaseSet`
  respectively `NotDBSettingJsonFile` on failure),
* in `__enter__`/`__exit__` opens and tears down an SSH tunnel plus a
  MySQL connection,
* offers the query operations `fetch`, `fetchItem`, `execute`,
  `executemany` and `dataframe`.

Below, the Python code is shallowly embedded: the file system, the SSH
tunnel collaborator and the MySQL driver are modelled as explicit data
(a lookup function for JSON files, a pure query-evaluation function for
the driver, and a trace of driver calls), and each Python method becomes
a Lean function on this state.
-/

namespace XserverDbHelper

/-! ## JSON values and objects

A configuration file, once parsed, is a JSON object.  Only strings and
integer numbers occur in this repository's configuration values. -/

/-- A JSON scalar value as found in the configuration file. -/
inductive JVal where
  | str : String → JVal
  | num : Int → JVal
  deriving DecidableEq, Repr

/-- A parsed JSON object: the association list of its key/value pairs. -/
abbrev JObj := List (String × JVal)

/-- Python dictionary subscript `json_data[key]`: the first binding of the
key, `none` when the key is absent (a `KeyError` in Python). -/
def JObj.get (j : JObj) (k : String) : Option JVal :=
  match j with
  | [] => none
  | (k2, v) :: rest => if k2 = k then some v else JObj.get rest k

/-- The value of a decimal digit character, `none` for a non-digit. -/
def digitVal (c : Char) : Option Nat :=
  if '0' ≤ c ∧ c ≤ '9' then some (c.toNat - '0'.toNat) else none

/-- A non-empty run of decimal digits read as a number, `none` when the
run is empty or contains a non-digit. -/
def parseDigits (cs : List Char) : Option Nat :=
  match cs with
  | [] => none
  | _ :: _ => cs.foldl (fun acc c => acc.bind (fun n => (digitVal c).map (fun d => n * 10 + d))) (some 0)

/-- CPython `int(s)` on a string: an optional sign followed by decimal
digits; anything else raises `ValueError` (`none`). -/
def pyStrToInt (s : String) : Option Int :=
  match s.toList with
  | '-' :: rest => (parseDigits rest).map (fun n => -(n : Int))
  | '+' :: rest => (parseDigits rest).map (fun n => (n : Int))
  | cs => (parseDigits cs).map (fun n => (n : Int))

/-- Python `int(x)` applied to a JSON scalar: an integer number converts
to itself, a string is parsed as a decimal integer, and a non-numeric
string raises (`none`). -/
def py_int : JVal → Option Int
  | .num n => some n
  | .str s => pyStrToInt s

/-! ## POSIX path helpers used by the constructor

`os.path.dirname` and `os.path.join` from CPython's `posixpath`,
restricted to the two-argument `join` the source uses. -/

/-- CPython `posixpath.dirname`: the part of the path before the final
slash, with trailing slashes stripped unless the result is all slashes. -/
def os_path_dirname (p : String) : String :=
  let cs := p.toList
  let head := (cs.reverse.dropWhile (fun c => c ≠ '/')).reverse
  if head.isEmpty ∨ head.all (fun c => c = '/') then ⟨head⟩
  else ⟨(head.reverse.dropWhile (fun c => c = '/')).reverse⟩

/-- Whether string `s` starts with `p` (as `str.startswith`). -/
def strStartsWith (s p : String) : Bool := p.toList.isPrefixOf s.toList

/-- Whether string `s` ends with `p` (as `str.endswith`). -/
def strEndsWith (s p : String) : Bool := p.toList.reverse.isPrefixOf s.toList.reverse

/-- CPython `posixpath.join a b`: `b` if it is absolute, otherwise `a`
and `b` separated by exactly one slash. -/
def os_path_join (a b : String) : String :=
  if strStartsWith b "/" then b
  else if a = "" ∨ strEndsWith a "/" then a ++ b
  else a ++ "/" ++ b

/-! ## The constructor `DBHelper.__init__` -/

/-- The two exception classes raised by `DBHelper.__init__`. -/
inductive InitError where
  | notDatabaseSet
  | notDBSettingJsonFile
  deriving DecidableEq, Repr

/-- The configuration record stored on `self` by a successful
`DBHelper.__init__`: the raw JSON values of the loaded fields, the ports
converted by `int(...)`, and the private-key path produced by
`os.path.join`. -/
structure Config where
  db_name : String
  db_host : JVal
  db_user : JVal
  db_password : JVal
  ssh_pkey : String
  ssh_host : JVal
  ssh_port : Int
  ssh_user : JVal
  ssh_pkey_pass : JVal
  ssh_mysql_host : JVal
  ssh_mysql_port : Int
  deriving DecidableEq, Repr

/-- A JSON value used where `os.path.join` needs a string: a number
there raises `TypeError` (`none`). -/
def asPyStr : JVal → Option String
  | .str s => some s
  | .num _ => none

/-- The body of the `try` block of `DBHelper.__init__` after the JSON
file has been parsed to `j`: the field extractions in source order.  Any
failing step (missing key, non-string private-key name, non-integer
port) raises, which this model reports as `none`. -/
def loadConfig (dbn : String) (path : String) (j : JObj) : Option Config := do
  let db_host ← j.get "db_host"
  let db_user ← j.get "db_user"
  let db_password ← j.get "db_password"
  let pkeyVal ← j.get "ssh_pkey_name"
  let pkeyName ← asPyStr pkeyVal
  let ssh_pkey := os_path_join (os_path_dirname path) pkeyName
  let ssh_host ← j.get "ssh_host"
  let ssh_port ← (j.get "ssh_port").bind py_int
  let ssh_user ← j.get "ssh_user"
  let ssh_pkey_pass ← j.get "ssh_pkey_pass"
  let ssh_mysql_host ← j.get "ssh_mysql_host"
  let ssh_mysql_port ← (j.get "ssh_mysql_port").bind py_int
  pure {
    db_name := dbn
    db_host := db_host
    db_user := db_user
    db_password := db_password
    ssh_pkey := ssh_pkey
    ssh_host := ssh_host
    ssh_port := ssh_port
    ssh_user := ssh_user
    ssh_pkey_pass := ssh_pkey_pass
    ssh_mysql_host := ssh_mysql_host
    ssh_mysql_port := ssh_mysql_port }

/-- The outcome of `open(db_setting_json_path)` followed by
`json.load`: the file system `fs` maps a path to its parsed JSON object
when the file exists and holds valid JSON; `open(None)` raises. -/
def readConfigFile (path : Option String) (fs : String → Option JObj) : Option JObj :=
  path.bind fs

/-- `DBHelper.__init__(database, db_setting_json_path)` over a file
system `fs`.  The database name is checked first (`NotDatabaseSet` when
it is `None`); then the whole `try` block — file open, JSON parse and
field extraction — turns any failure into `NotDBSettingJsonFile`. -/
def DBHelper_init (database : Option String) (db_setting_json_path : Option String)
    (fs : String → Option JObj) : Except InitError Config :=
  match database with
  | none => .error .notDatabaseSet
  | some dbn =>
    match db_setting_json_path with
    | none => .error .notDBSettingJsonFile
    | some path =>
      match readConfigFile (some path) fs with
      | none => .error .notDBSettingJsonFile
      | some j =>
        match loadConfig dbn path j with
        | none => .error .notDBSettingJsonFile
        | some c => .ok c

/-- The ten keys `DBHelper.__init__` reads from the configuration
object. -/
def requiredKeys : List String :=
  ["db_host", "db_user", "db_password", "ssh_pkey_name", "ssh_host",
   "ssh_port", "ssh_user", "ssh_pkey_pass", "ssh_mysql_host", "ssh_mysql_port"]

/-! ## The session: tunnel, connection and cursor

`__enter__` starts the SSH tunnel, connects to MySQL through it with a
`DictCursor`, and keeps the cursor on `self`.  The two external
collaborators are modelled as a pure query-evaluation function (the data
the server answers with) and a trace of the driver calls the helper
issues. -/

/-- A cell value in a result row. -/
abbrev Val := String

/-- One database row as the `DictCursor` returns it: a mapping from
column name to value, in column order. -/
abbrev Record := List (String × Val)

/-- A call to one of the driver primitives used by the helper's
methods, recorded in the session trace. -/
inductive DriverOp where
  | serverStart
  | connect
  | curExecute (sql : String) (args : Option (List Val))
  | curExecutemany (sql : String) (argsList : List (List Val))
  | curFetchall
  | curFetchone
  | conCommit
  | conClose
  | serverStop
  deriving DecidableEq, Repr

/-- The live session after `__enter__`: the configuration that was
stored at construction, the remote data (as the function from a query
and its bound parameters to the result rows), the rows buffered in the
cursor by the latest `execute`, and the trace of driver calls. -/
structure Session where
  cfg : Config
  eval : String → Option (List Val) → List Record
  pending : List Record
  tr : List DriverOp

/-- `DBHelper.__enter__` against a server whose data is `ev`: start the
tunnel, connect, create the cursor (empty row buffer), return `self`. -/
def DBHelper_enter (cfg : Config) (ev : String → Option (List Val) → List Record) : Session :=
  { cfg := cfg
    eval := ev
    pending := []
    tr := [.serverStart, .connect] }

/-- `self.cur.execute(sql, args)`: the driver runs the statement with
its parameter-binding mechanism and fills the cursor's row buffer with
the result set. -/
def cur_execute (s : Session) (sql : String) (args : Option (List Val)) : Session :=
  { s with pending := s.eval sql args, tr := s.tr ++ [.curExecute sql args] }

/-- `self.cur.executemany(sql, list)`: the driver runs the statement
once per parameter tuple; no result rows are buffered. -/
def cur_executemany (s : Session) (sql : String) (argsList : List (List Val)) : Session :=
  { s with pending := [], tr := s.tr ++ [.curExecutemany sql argsList] }

/-- `self.cur.fetchall()`: all buffered rows, emptying the buffer. -/
def cur_fetchall (s : Session) : List Record × Session :=
  (s.pending, { s with pending := [], tr := s.tr ++ [.curFetchall] })

/-- `self.cur.fetchone()`: the next buffered row, or `None` when the
buffer is exhausted. -/
def cur_fetchone (s : Session) : Option Record × Session :=
  match s.pending with
  | [] => (none, { s with tr := s.tr ++ [.curFetchone] })
  | r :: rest => (some r, { s with pending := rest, tr := s.tr ++ [.curFetchone] })

/-- `self.con.commit()`. -/
def con_commit (s : Session) : Session :=
  { s with tr := s.tr ++ [.conCommit] }

/-- `DBHelper.__exit__` body: `self.con.close()` then
`self.server.stop()` (failure-free run; failing teardown is modelled
separately below). -/
def DBHelper_exit (s : Session) : Session :=
  { s with tr := s.tr ++ [.conClose, .serverStop] }

/-! ## The query operations -/

/-- `DBHelper.fetch(sql, args)`: run the statement, then return
`cur.fetchall()`. -/
def DBHelper_fetch (s : Session) (sql : String) (args : Option (List Val)) :
    List Record × Session :=
  cur_fetchall (cur_execute s sql args)

/-- The `while True` loop of `DBHelper.fetchItem`: call
`cur.fetchone()`, stop at `None`, otherwise yield the row and continue.
The returned list is the sequence of yielded rows in order. -/
def fetchItemLoop (s : Session) : List Record × Session :=
  match h : cur_fetchone s with
  | (none, s2) => ([], s2)
  | (some r, s2) =>
    let rest := fetchItemLoop s2
    (r :: rest.1, rest.2)
termination_by s.pending.length
decreasing_by
  simp only [cur_fetchone] at h
  cases hp : s.pending with
  | nil => rw [hp] at h; simp at h
  | cons a as =>
    rw [hp] at h
    simp only [Prod.mk.injEq, Option.some.injEq] at h
    rw [← h.2]
    simp [hp]

/-- `DBHelper.fetchItem(sql, args)` consumed to exhaustion: run the
statement, then drain the cursor one row at a time. -/
def DBHelper_fetchItem (s : Session) (sql : String) (args : Option (List Val)) :
    List Record × Session :=
  fetchItemLoop (cur_execute s sql args)

/-- `DBHelper.execute(sql, args)`: run the single statement, commit,
and — despite the documented `int` return — fall off the end of the
function, returning Python `None` (here `none : Option Int`). -/
def DBHelper_execute (s : Session) (sql : String) (args : Option (List Val)) :
    Option Int × Session :=
  (none, con_commit (cur_execute s sql args))

/-- `DBHelper.executemany(sql, list)`: run the batch, commit, and fall
off the end of the function, returning Python `None`. -/
def DBHelper_executemany (s : Session) (sql : String) (argsList : List (List Val)) :
    Option Int × Session :=
  (none, con_commit (cur_executemany s sql argsList))

/-! ## `DBHelper.dataframe` and the pandas collaborator

`DataFrame(list_of_dicts)` builds a table whose columns are the row
keys in order of first appearance and whose cells are each row's value
for the column (missing keys become empty cells). -/

/-- A pandas data frame as far as this repository uses it: the column
labels and, per row, one optional cell per column. -/
structure DataFrame where
  columns : List String
  rows : List (List (Option Val))
  deriving DecidableEq, Repr

/-- Extend an accumulated column list with the keys of one record, in
order, skipping keys already present. -/
def addKeys (cols : List String) (r : Record) : List String :=
  r.foldl (fun acc kv => if kv.1 ∈ acc then acc else acc ++ [kv.1]) cols

/-- The column labels `DataFrame` derives from a list of dict rows:
keys in order of first appearance. -/
def collectColumns (rs : List Record) : List String :=
  rs.foldl addKeys []

/-- One record's cell for a column label: the dict lookup. -/
def recordCell (r : Record) (k : String) : Option Val :=
  match r with
  | [] => none
  | (k2, v) :: rest => if k2 = k then some v else recordCell rest k

/-- `pandas.DataFrame` applied to a list of dict rows. -/
def mkDataFrame (rs : List Record) : DataFrame :=
  { columns := collectColumns rs
    rows := rs.map (fun r => (collectColumns rs).map (recordCell r)) }

/-- `DBHelper.dataframe(sql, args)`: `DataFrame(self.fetch(sql, args))`. -/
def DBHelper_dataframe (s : Session) (sql : String) (args : Option (List Val)) :
    DataFrame × Session :=
  let p := DBHelper_fetch s sql args
  (mkDataFrame p.1, p.2)

/-- Read a data frame back as the sequence of records it displays: per
row, the column labels paired with the present cells. -/
def DataFrame.toRecords (df : DataFrame) : List Record :=
  df.rows.map (fun row =>
    (df.columns.zip row).filterMap (fun kv => kv.2.map (fun v => (kv.1, v))))

/-! ## Scoped teardown with failing steps

`__exit__` is two sequential calls with no exception handling, so a
raising `con.close()` propagates before `server.stop()` is reached.
The `with` statement (CPython semantics) calls `__exit__` exactly once
after a successful `__enter__`, whether or not the block raised.  The
run of a scoped use of `DBHelper` is recorded as an event trace. -/

/-- Observable events of one `with DBHelper(...) as helper:` run. -/
inductive Ev where
  | enterEv
  | bodyEv
  | exitEv
  | closeEv
  | stopEv
  deriving DecidableEq, Repr

/-- One `__exit__` call with possibly failing teardown steps: the
events it produces and whether it raises.  The connection close is
always attempted; the tunnel stop is reached only when `con.close()`
did not raise (`closeOk`), and the sequence has no handler, so either
step's exception propagates. -/
def exitRun (closeOk stopOk : Bool) : List Ev × Bool :=
  if closeOk then ([.exitEv, .closeEv, .stopEv], !stopOk)
  else ([.exitEv, .closeEv], true)

/-- A full `with DBHelper(...)` run: `__enter__`, then the block, then
— whether or not the block raised (`bodyRaises`) — the single
`__exit__` call; the second component tells whether an exception leaves
the `with` statement.  When `__enter__` itself raises
(`enterOk = false`) the block and `__exit__` never run. -/
def withRun (enterOk bodyRaises closeOk stopOk : Bool) : List Ev × Bool :=
  if enterOk then
    let ex := exitRun closeOk stopOk
    ([.enterEv, .bodyEv] ++ ex.1, bodyRaises || ex.2)
  else ([.enterEv], true)

/-! ## Auxiliary lemmas -/

theorem cur_fetchone_none (s s2 : Session) (h : cur_fetchone s = (none, s2)) :
    s.pending = [] ∧ s2.pending = [] ∧ s2.cfg = s.cfg ∧ s2.eval = s.eval := by
  cases hp : s.pending with
  | nil =>
    simp only [cur_fetchone, hp, Prod.mk.injEq, true_and] at h
    refine ⟨rfl, ?_, ?_, ?_⟩ <;> rw [← h]
  | cons a as =>
    simp [cur_fetchone, hp] at h

theorem cur_fetchone_some (s s2 : Session) (r : Record) (h : cur_fetchone s = (some r, s2)) :
    s.pending = r :: s2.pending ∧ s2.cfg = s.cfg ∧ s2.eval = s.eval := by
  cases hp : s.pending with
  | nil =>
    simp [cur_fetchone, hp] at h
  | cons a as =>
    simp only [cur_fetchone, hp, Prod.mk.injEq, Option.some.injEq] at h
    refine ⟨?_, ?_, ?_⟩
    · rw [← h.2, h.1]
    · rw [← h.2]
    · rw [← h.2]

theorem fetchItemLoop_spec (s : Session) :
    (fetchItemLoop s).1 = s.pending ∧ (fetchItemLoop s).2.cfg = s.cfg ∧
      (fetchItemLoop s).2.eval = s.eval := by
  suffices hgen : ∀ n (s : Session), s.pending.length = n →
      (fetchItemLoop s).1 = s.pending ∧ (fetchItemLoop s).2.cfg = s.cfg ∧
        (fetchItemLoop s).2.eval = s.eval from hgen s.pending.length s rfl
  intro n
  induction n using Nat.strong_induction_on with
  | _ n ih =>
    intro s hn
    rw [fetchItemLoop.eq_def]
    split
    · next s2 h =>
      obtain ⟨hp, _, hcfg, hev⟩ := cur_fetchone_none s s2 h
      exact ⟨hp.symm, hcfg, hev⟩
    · next r s2 h =>
      obtain ⟨hp, hcfg, hev⟩ := cur_fetchone_some s s2 r h
      have hlt : s2.pending.length < n := by
        rw [← hn, hp]
        simp
      obtain ⟨ih1, ih2, ih3⟩ := ih s2.pending.length hlt s2 rfl
      refine ⟨?_, ?_, ?_⟩
      · simp only [ih1, hp]
      · simp only [ih2, hcfg]
      · simp only [ih3, hev]

theorem loadConfig_some_facts (dbn path : String) (j : JObj) (c : Config)
    (h : loadConfig dbn path j = some c) :
    (j.get "db_host").isSome ∧ (j.get "db_user").isSome ∧
    (j.get "db_password").isSome ∧
    (∃ s, j.get "ssh_pkey_name" = some (.str s) ∧
      c.ssh_pkey = os_path_join (os_path_dirname path) s) ∧
    (j.get "ssh_host").isSome ∧ ((j.get "ssh_port").bind py_int).isSome ∧
    (j.get "ssh_user").isSome ∧ (j.get "ssh_pkey_pass").isSome ∧
    (j.get "ssh_mysql_host").isSome ∧
    ((j.get "ssh_mysql_port").bind py_int).isSome := by
  simp only [loadConfig, Option.bind_eq_bind, Option.bind_eq_some, Option.pure_def,
    Option.some.injEq] at h
  obtain ⟨v1, h1, v2, h2, v3, h3, pv, hpv, pn, hpn, v5, h5, v6, ⟨p6, hp6, hc6⟩,
    v7, h7, v8, h8, v9, h9, v10, ⟨p10, hp10, hc10⟩, hc⟩ := h
  cases pv with
  | num k => simp [asPyStr] at hpn
  | str sname =>
    simp only [asPyStr, Option.some.injEq] at hpn
    refine ⟨by simp [h1], by simp [h2], by simp [h3],
      ⟨sname, hpv, ?_⟩, by simp [h5], by simp [hp6, hc6], by simp [h7],
      by simp [h8], by simp [h9], by simp [hp10, hc10]⟩
    rw [← hc, hpn]

/-- C2: for every configuration file that cannot be opened, is not
valid JSON, or lacks one of the ten required keys, construction of
`DBHelper` with a non-`None` database name fails with
`NotDBSettingJsonFile`. -/
theorem init_invalid_config_fails (dbn : String) (path : Option String)
    (fs : String → Option JObj)
    (h : readConfigFile path fs = none ∨
      ∃ j, readConfigFile path fs = some j ∧ ∃ k ∈ requiredKeys, j.get k = none) :
    DBHelper_init (some dbn) path fs = Except.error InitError.notDBSettingJsonFile := by
  cases path with
  | none => rfl
  | some p =>
    cases h with
    | inl h0 =>
      simp only [DBHelper_init, h0]
    | inr h0 =>
      obtain ⟨j, hj, k, hk, hnone⟩ := h0
      have hload : loadConfig dbn p j = none := by
        cases hload : loadConfig dbn p j with
        | none => rfl
        | some c =>
          obtain ⟨f1, f2, f3, ⟨sname, hsname, -⟩, f5, f6, f7, f8, f9, f10⟩ :=
            loadConfig_some_facts dbn p j c hload
          simp only [requiredKeys, List.mem_cons, List.not_mem_nil, or_false] at hk
          rcases hk with rfl | rfl | rfl | rfl | rfl | rfl | rfl | rfl | rfl | rfl
          · simp [hnone] at f1
          · simp [hnone] at f2
          · simp [hnone] at f3
          · simp [hnone] at hsname
          · simp [hnone] at f5
          · simp [hnone] at f6
          · simp [hnone] at f7
          · simp [hnone] at f8
          · simp [hnone] at f9
          · simp [hnone] at f10
      simp only [DBHelper_init, hj, hload]

/-- C2 witness: an unreadable configuration file (the file system holds
no JSON at any path) makes construction with database name `db` fail
with `NotDBSettingJsonFile`. -/
theorem init_invalid_config_fails_witness :
    readConfigFile (some "/a/cfg.json") (fun _ => none) = none ∧
    DBHelper_init (some "db") (some "/a/cfg.json") (fun _ => none) =
      Except.error InitError.notDBSettingJsonFile :=
  ⟨rfl, init_invalid_config_fails "db" (some "/a/cfg.json") (fun _ => none) (Or.inl rfl)⟩

/-- C10: for every configuration file that contains all ten required
keys but whose `ssh_port` or `ssh_mysql_port` value cannot be converted
by `int(...)`, construction with a non-`None` database name fails with
`NotDBSettingJsonFile`, the same condition as for a missing key, since
the conversions happen inside the blanket `except` handler. -/
theorem init_bad_port_fails (dbn p : String) (fs : String → Option JObj) (j : JObj)
    (hread : readConfigFile (some p) fs = some j)
    (hkeys : ∀ k ∈ requiredKeys, (j.get k).isSome)
    (hport : (j.get "ssh_port").bind py_int = none ∨
      (j.get "ssh_mysql_port").bind py_int = none) :
    DBHelper_init (some dbn) (some p) fs = Except.error InitError.notDBSettingJsonFile := by
  have hload : loadConfig dbn p j = none := by
    cases hload : loadConfig dbn p j with
    | none => rfl
    | some c =>
      obtain ⟨-, -, -, -, -, f6, -, -, -, f10⟩ := loadConfig_some_facts dbn p j c hload
      cases hport with
      | inl h0 => simp [h0] at f6
      | inr h0 => simp [h0] at f10
  simp only [DBHelper_init, hread, hload]

/-- C4: for every successful construction, the stored private-key path
is the configured key name joined (by `os.path.join`) to the directory
of the configuration file. -/
theorem init_pkey_joined_to_config_dir (dbn p : String) (fs : String → Option JObj)
    (c : Config) (h : DBHelper_init (some dbn) (some p) fs = Except.ok c) :
    ∃ j keyName, fs p = some j ∧ j.get "ssh_pkey_name" = some (.str keyName) ∧
      c.ssh_pkey = os_path_join (os_path_dirname p) keyName := by
  cases hj : readConfigFile (some p) fs with
  | none => simp [DBHelper_init, hj] at h
  | some j =>
    cases hload : loadConfig dbn p j with
    | none => simp [DBHelper_init, hj, hload] at h
    | some c2 =>
      have hc2 : c2 = c := by
        simp only [DBHelper_init, hj, hload, Except.ok.injEq] at h
        exact h
      obtain ⟨-, -, -, ⟨sname, hsname, hpk⟩, -, -, -, -, -, -⟩ :=
        loadConfig_some_facts dbn p j c2 hload
      exact ⟨j, sname, hj, hsname, by rw [← hc2, hpk]⟩

/-! ## Concrete sample data for witnesses -/

/-- A configuration file with all ten required keys. -/
def sampleJson : JObj :=
  [("db_host", .str "localhost"), ("db_user", .str "user"),
   ("db_password", .str "pw"), ("ssh_pkey_name", .str "id_rsa"),
   ("ssh_host", .str "xs.example.com"), ("ssh_port", .str "22"),
   ("ssh_user", .str "sshuser"), ("ssh_pkey_pass", .str "pp"),
   ("ssh_mysql_host", .str "127.0.0.1"), ("ssh_mysql_port", .num 3306)]

/-- A file system on which every path holds `sampleJson`. -/
def sampleFs : String → Option JObj := fun _ => some sampleJson

/-- The configuration `DBHelper.__init__` builds from `sampleJson` at
path `/a/b/cfg.json`, for a given database name. -/
def sampleConfig (dbn : String) : Config :=
  { db_name := dbn
    db_host := .str "localhost"
    db_user := .str "user"
    db_password := .str "pw"
    ssh_pkey := "/a/b/id_rsa"
    ssh_host := .str "xs.example.com"
    ssh_port := 22
    ssh_user := .str "sshuser"
    ssh_pkey_pass := .str "pp"
    ssh_mysql_host := .str "127.0.0.1"
    ssh_mysql_port := 3306 }

/-- A configuration file with all ten required keys but a non-numeric
`ssh_port` value. -/
def badPortJson : JObj :=
  [("db_host", .str "localhost"), ("db_user", .str "user"),
   ("db_password", .str "pw"), ("ssh_pkey_name", .str "id_rsa"),
   ("ssh_host", .str "xs.example.com"), ("ssh_port", .str "twenty-two"),
   ("ssh_user", .str "sshuser"), ("ssh_pkey_pass", .str "pp"),
   ("ssh_mysql_host", .str "127.0.0.1"), ("ssh_mysql_port", .num 3306)]

/-! ## The claims -/

/-- C10 witness: a file holding `badPortJson` — all ten keys present,
`ssh_port` equal to the string `twenty-two` — makes construction with
database name `db` fail with `NotDBSettingJsonFile`. -/
theorem init_bad_port_fails_witness :
    readConfigFile (some "/a/b/cfg.json") (fun _ => some badPortJson) = some badPortJson ∧
    (∀ k ∈ requiredKeys, (badPortJson.get k).isSome) ∧
    (badPortJson.get "ssh_port").bind py_int = none ∧
    DBHelper_init (some "db") (some "/a/b/cfg.json") (fun _ => some badPortJson) =
      Except.error InitError.notDBSettingJsonFile :=
  ⟨rfl, by decide, by decide,
    init_bad_port_fails "db" "/a/b/cfg.json" (fun _ => some badPortJson) badPortJson
      rfl (by decide) (Or.inl (by decide))⟩

/-- C4 witness: with the configuration file at `/a/b/cfg.json` naming
the key `id_rsa`, the stored private-key path is `/a/b/id_rsa`. -/
theorem init_pkey_joined_witness :
    (∃ j keyName, sampleFs "/a/b/cfg.json" = some j ∧
      j.get "ssh_pkey_name" = some (.str keyName) ∧
      (sampleConfig "db").ssh_pkey = os_path_join (os_path_dirname "/a/b/cfg.json") keyName) ∧
    (sampleConfig "db").ssh_pkey = "/a/b/id_rsa" :=
  ⟨init_pkey_joined_to_config_dir "db" "/a/b/cfg.json" sampleFs (sampleConfig "db") rfl, rfl⟩

/-- C1: for every active session and every SQL string with optional
parameters, `DBHelper.execute` and `DBHelper.executemany` perform the
statement(s) followed by a single commit and return no value (Python
`None`), not the affected-row count their documented `int` contract
promises. -/
theorem execute_commits_once_returns_none (s : Session) (sql : String)
    (args : Option (List Val)) (argsList : List (List Val)) :
    (DBHelper_execute s sql args).1 = none ∧
    (DBHelper_execute s sql args).2.tr = s.tr ++ [.curExecute sql args, .conCommit] ∧
    (DBHelper_executemany s sql argsList).1 = none ∧
    (DBHelper_executemany s sql argsList).2.tr =
      s.tr ++ [.curExecutemany sql argsList, .conCommit] := by
  refine ⟨rfl, ?_, rfl, ?_⟩ <;>
    simp [DBHelper_execute, DBHelper_executemany, con_commit, cur_execute, cur_executemany]

/-- C3 counterexample: the empty string is not `None`, so construction
with an empty database name does not fail with `NotDatabaseSet` (it
succeeds on a valid configuration file), refuting the claim that an
empty name triggers the failure. -/
theorem init_empty_name_not_notDatabaseSet :
    DBHelper_init (some "") (some "/a/b/cfg.json") sampleFs ≠
      Except.error InitError.notDatabaseSet := by
  intro hcontra
  have hok : DBHelper_init (some "") (some "/a/b/cfg.json") sampleFs =
      Except.ok (sampleConfig "") := by rfl
  rw [hok] at hcontra
  exact Except.noConfusion hcontra

/-- C3 amended: for every construction call whose database name is
absent (`None`), `DBHelper.__init__` fails with `NotDatabaseSet`, and
the failure is independent of the configuration path and of the file
system, i.e. it happens before any file I/O; an empty-string database
name, by contrast, is accepted. -/
theorem init_none_name_fails_before_io (path : Option String)
    (fs : String → Option JObj) :
    DBHelper_init none path fs = Except.error InitError.notDatabaseSet := rfl

/-- C9: there is a construction input — the empty string as database
name together with a valid configuration file — on which
`DBHelper.__init__` does not raise `NotDatabaseSet` and construction
succeeds, because the constructor rejects only the value `None`. -/
theorem init_empty_name_succeeds :
    DBHelper_init (some "") (some "/a/b/cfg.json") sampleFs =
      Except.ok (sampleConfig "") := rfl

/-- C5: for every SQL string and parameter sequence evaluated against
the same cursor state, `DBHelper.fetchItem` consumed to exhaustion
yields exactly the records `DBHelper.fetch` returns, in the same
order. -/
theorem fetchItem_yields_fetch (s : Session) (sql : String)
    (args : Option (List Val)) :
    (DBHelper_fetchItem s sql args).1 = (DBHelper_fetch s sql args).1 := by
  have hloop := (fetchItemLoop_spec (cur_execute s sql args)).1
  simp only [DBHelper_fetchItem, DBHelper_fetch, cur_fetchall, hloop]

/-- C7 counterexample: in a scoped run whose block succeeds but whose
connection close raises, the tunnel stop is never attempted — `__exit__`
has no handler around `con.close()` — refuting the claim that both
teardown steps are attempted even if a teardown step itself fails. -/
theorem exit_skips_stop_when_close_fails :
    Ev.stopEv ∉ (withRun true false false true).1 := by decide

/-- C7 amended: for every scoped entry of a session, including when an
exception is raised inside the block, scoped exit runs exactly once and
attempts the connection close first; the tunnel stop is attempted
exactly when the close step does not itself raise (a raising close
propagates and skips the stop). -/
theorem exit_once_close_then_stop (bodyRaises closeOk stopOk : Bool) :
    (withRun true bodyRaises closeOk stopOk).1.count .exitEv = 1 ∧
    Ev.closeEv ∈ (withRun true bodyRaises closeOk stopOk).1 ∧
    (Ev.stopEv ∈ (withRun true bodyRaises closeOk stopOk).1 ↔ closeOk = true) := by
  cases bodyRaises <;> cases closeOk <;> cases stopOk <;> decide

theorem addKeys_of_nodup_append (r : Record) (acc : List String)
    (h : (acc ++ r.map Prod.fst).Nodup) : addKeys acc r = acc ++ r.map Prod.fst := by
  induction r generalizing acc with
  | nil => simp [addKeys]
  | cons kv rest ih =>
    have hk : kv.1 ∉ acc := by
      intro hmem
      rw [List.nodup_append] at h
      exact h.2.2 hmem (by simp)
    have hstep : addKeys acc (kv :: rest) = addKeys (acc ++ [kv.1]) rest := by
      simp [addKeys, hk]
    rw [hstep, ih (acc ++ [kv.1]) (by simpa using h)]
    simp

theorem addKeys_of_subset (r : Record) (acc : List String)
    (h : ∀ kv ∈ r, kv.1 ∈ acc) : addKeys acc r = acc := by
  induction r generalizing acc with
  | nil => simp [addKeys]
  | cons kv rest ih =>
    have hk : kv.1 ∈ acc := h kv (by simp)
    have hstep : addKeys acc (kv :: rest) = addKeys acc rest := by
      simp [addKeys, hk]
    rw [hstep]
    exact ih acc (fun x hx => h x (by simp [hx]))

theorem collectColumns_uniform (cols : List String) (r0 : Record) (rest : List Record)
    (hnd : cols.Nodup) (h : ∀ r ∈ r0 :: rest, r.map Prod.fst = cols) :
    collectColumns (r0 :: rest) = cols := by
  have h0 : addKeys [] r0 = cols := by
    have := addKeys_of_nodup_append r0 []
      (by simpa [h r0 (by simp)] using hnd)
    simpa [h r0 (by simp)] using this
  have hrest : ∀ rs, (∀ r ∈ rs, r.map Prod.fst = cols) →
      List.foldl addKeys cols rs = cols := by
    intro rs
    induction rs with
    | nil => intro _; rfl
    | cons r2 rs2 ih =>
      intro hall
      have hsub : addKeys cols r2 = cols := by
        refine addKeys_of_subset r2 cols (fun kv hkv => ?_)
        rw [← hall r2 (by simp)]
        exact List.mem_map_of_mem Prod.fst hkv
      simp only [List.foldl_cons, hsub]
      exact ih (fun r hr => hall r (by simp [hr]))
  simp only [collectColumns, List.foldl_cons, h0]
  exact hrest rest (fun r hr => h r (by simp [hr]))

theorem recordCell_keys (r : Record) (hnd : (r.map Prod.fst).Nodup) :
    (r.map Prod.fst).map (recordCell r) = r.map (fun kv => some kv.2) := by
  induction r with
  | nil => rfl
  | cons kv rest ih =>
    simp only [List.map_cons]
    congr 1
    · simp [recordCell]
    · have hk : kv.1 ∉ rest.map Prod.fst := by
        simp only [List.map_cons, List.nodup_cons] at hnd
        exact hnd.1
      have hcong : (rest.map Prod.fst).map (recordCell (kv :: rest)) =
          (rest.map Prod.fst).map (recordCell rest) := by
        refine List.map_congr_left (fun k2 hk2 => ?_)
        have hne : kv.1 ≠ k2 := fun he => hk (he ▸ hk2)
        simp [recordCell, hne]
      rw [hcong]
      exact ih (by simp only [List.map_cons, List.nodup_cons] at hnd; exact hnd.2)

theorem zip_some_roundtrip (r : Record) :
    ((r.map Prod.fst).zip (r.map (fun kv => some kv.2))).filterMap
      (fun kv => kv.2.map (fun v => (kv.1, v))) = r := by
  induction r with
  | nil => rfl
  | cons kv rest ih => simp [List.zip_cons_cons, List.filterMap_cons, ih]

theorem record_roundtrip (r : Record) (hnd : (r.map Prod.fst).Nodup) :
    ((r.map Prod.fst).zip ((r.map Prod.fst).map (recordCell r))).filterMap
      (fun kv => kv.2.map (fun v => (kv.1, v))) = r := by
  rw [recordCell_keys r hnd]
  exact zip_some_roundtrip r

theorem mkDataFrame_toRecords (cols : List String) (rs : List Record)
    (hnd : cols.Nodup) (h : ∀ r ∈ rs, r.map Prod.fst = cols) :
    (mkDataFrame rs).toRecords = rs := by
  cases rs with
  | nil => rfl
  | cons r0 rest =>
    have hcols : collectColumns (r0 :: rest) = cols :=
      collectColumns_uniform cols r0 rest hnd h
    simp only [mkDataFrame, DataFrame.toRecords, hcols, List.map_map]
    refine List.map_congr_left (fun r hr => ?_) |>.trans (List.map_id (r0 :: rest))
    have hkeys : r.map Prod.fst = cols := h r hr
    have hnd2 : (r.map Prod.fst).Nodup := by rw [hkeys]; exact hnd
    have := record_roundtrip r hnd2
    rw [hkeys] at this
    simpa using this

/-- C6: for every SQL string and parameter sequence evaluated against
the same data, `DBHelper.dataframe` produces exactly the table built
from `DBHelper.fetch`, and — whenever the fetched records share one
duplicate-free column list, as a SQL result set does — the table's rows
and columns reconstruct the fetched record sequence exactly. -/
theorem dataframe_reconstructs_fetch (s : Session) (sql : String)
    (args : Option (List Val)) (cols : List String) (hnd : cols.Nodup)
    (h : ∀ r ∈ (DBHelper_fetch s sql args).1, r.map Prod.fst = cols) :
    (DBHelper_dataframe s sql args).1 = mkDataFrame (DBHelper_fetch s sql args).1 ∧
    ((DBHelper_dataframe s sql args).1).toRecords = (DBHelper_fetch s sql args).1 :=
  ⟨rfl, mkDataFrame_toRecords cols (DBHelper_fetch s sql args).1 hnd h⟩

/-- Two sample result rows over the columns `CODE`, `NAME`. -/
def sampleRows : List Record :=
  [[("CODE", "0010"), ("NAME", "Sato")], [("CODE", "0020"), ("NAME", "Takahashi")]]

/-- A session over a server that answers every query with
`sampleRows`. -/
def sampleSession : Session :=
  { cfg := sampleConfig "db"
    eval := fun _ _ => sampleRows
    pending := []
    tr := [] }

/-- C6 witness: on a concrete two-row result set over columns `CODE`
and `NAME`, the data frame equals the table built from the fetched
records and reconstructs them exactly. -/
theorem dataframe_reconstructs_fetch_witness :
    (["CODE", "NAME"] : List String).Nodup ∧
    (∀ r ∈ (DBHelper_fetch sampleSession "SELECT * FROM TABLE1" none).1,
      r.map Prod.fst = ["CODE", "NAME"]) ∧
    ((DBHelper_dataframe sampleSession "SELECT * FROM TABLE1" none).1 =
        mkDataFrame (DBHelper_fetch sampleSession "SELECT * FROM TABLE1" none).1 ∧
      ((DBHelper_dataframe sampleSession "SELECT * FROM TABLE1" none).1).toRecords =
        (DBHelper_fetch sampleSession "SELECT * FROM TABLE1" none).1) :=
  ⟨by decide, by decide,
    dataframe_reconstructs_fetch sampleSession "SELECT * FROM TABLE1" none
      ["CODE", "NAME"] (by decide) (by decide)⟩

/-- C8: for every successfully constructed helper and every subsequent
operation — session entry, fetch, fetchItem, execute, executemany,
dataframe, session exit — the configuration record loaded at
construction is unchanged. -/
theorem config_fields_immutable (cfg : Config)
    (ev : String → Option (List Val) → List Record) (s : Session) (sql : String)
    (args : Option (List Val)) (argsList : List (List Val)) :
    (DBHelper_enter cfg ev).cfg = cfg ∧
    (DBHelper_fetch s sql args).2.cfg = s.cfg ∧
    (DBHelper_fetchItem s sql args).2.cfg = s.cfg ∧
    (DBHelper_execute s sql args).2.cfg = s.cfg ∧
    (DBHelper_executemany s sql argsList).2.cfg = s.cfg ∧
    (DBHelper_dataframe s sql args).2.cfg = s.cfg ∧
    (DBHelper_exit s).cfg = s.cfg := by
  refine ⟨rfl, rfl, ?_, rfl, rfl, rfl, rfl⟩
  have hloop := (fetchItemLoop_spec (cur_execute s sql args)).2.1
  simpa [DBHelper_fetchItem, cur_execute] using hloop

end XserverDbHelper
